import Mathlib

/-!
Shallow embedding of `src/moonraker/components/recore.py`, the Recore
component of Moonraker.  The component registers three endpoints
(`/recore/enable_ssh`, `/recore/set_boot_media`, `/recore/state`), delegates
mutating work to a `BaseProvider` which dispatches sudo commands through the
external `machine` collaborator, and queries state through two plain shell
commands built at construction time.

External effects (shell commands, the machine collaborator) are modelled by
an `ExecEnv` of response functions, and every operation additionally returns
the list of external invocations it performed, tagged by whether they went
through the privileged (sudo) path or the plain shell-command path.
-/

/-- Result of an external command: an error (the collaborator's exception,
carrying a message) or the captured stdout string. -/
abbrev ShellOut := Except String String

/-- A recorded external invocation: through the privileged path
(`BaseProvider._exec_sudo_command`, i.e. `machine.exec_sudo_command`), or as
a plain shell command (`shell_cmd.build_shell_command(...).run_with_response`). -/
inductive Invocation where
  | sudo (command : String)
  | plain (command : String)
deriving DecidableEq, Repr

/-- Whether an invocation went through the privileged path. -/
def Invocation.isSudo : Invocation → Bool
  | Invocation.sudo _ => true
  | Invocation.plain _ => false

/-- The environment of external collaborators: what a plain shell command
returns, and what the machine collaborator's sudo execution returns, both as
functions of the command string. -/
structure ExecEnv where
  runPlain : String → ShellOut
  runSudo : String → ShellOut

/-- Python's `str.strip()` with no argument: remove leading and trailing
whitespace.  Stated over the string's character list so that it reduces by
computation. -/
def pyStrip (s : String) : String :=
  String.mk
    (((s.data.dropWhile Char.isWhitespace).reverse.dropWhile
        Char.isWhitespace).reverse)

/-- `get_boot_media_bin` in `Recore.__init__`. -/
def getBootMediaBin : String := "/usr/local/bin/get-boot-media"

/-- `is_ssh_enabled_bin` in `Recore.__init__`. -/
def isSshEnabledBin : String := "/usr/local/bin/is-ssh-enabled"

/-- The fixed binary path interpolated in `BaseProvider.enable_ssh`. -/
def setSshAccessBin : String := "/usr/local/bin/set-ssh-access"

/-- The fixed binary path interpolated in `BaseProvider.set_boot_media`. -/
def setBootMediaBin : String := "/usr/local/bin/set-boot-media"

/-- `BaseProvider._exec_sudo_command`: looks up the `machine` component and
forwards the command to its sudo execution.  Returns the recorded invocation
together with the collaborator's result; an error result is the propagated
exception. -/
def BaseProvider.execSudoCommand (env : ExecEnv) (command : String) :
    List Invocation × ShellOut :=
  ([Invocation.sudo command], env.runSudo command)

/-- `BaseProvider.enable_ssh`: formats the fixed binary path with the
caller-supplied argument and dispatches it through the sudo path.  No local
exception handling: an error from the sudo call is returned as an error. -/
def BaseProvider.enableSsh (env : ExecEnv) (enabled : String) :
    List Invocation × Except String Unit :=
  let r := BaseProvider.execSudoCommand env (setSshAccessBin ++ " " ++ enabled)
  (r.1, r.2.map fun _ => ())

/-- `BaseProvider.set_boot_media`: formats the fixed binary path with the
caller-supplied argument and dispatches it through the sudo path.  No local
exception handling. -/
def BaseProvider.setBootMedia (env : ExecEnv) (media : String) :
    List Invocation × Except String Unit :=
  let r := BaseProvider.execSudoCommand env (setBootMediaBin ++ " " ++ media)
  (r.1, r.2.map fun _ => ())

/-- `Recore._get_boot_media`: runs the boot-media query command as a plain
shell command; a shell error is caught and degraded to `"Failed"`, a falsy
(empty) response yields `"unknown"`, otherwise the stripped response. -/
def Recore.getBootMedia (env : ExecEnv) : List Invocation × String :=
  ([Invocation.plain getBootMediaBin],
    match env.runPlain getBootMediaBin with
    | Except.error _ => "Failed"
    | Except.ok resp => if resp = "" then "unknown" else pyStrip resp)

/-- `Recore._get_ssh_enabled`: runs the ssh-enabled query command as a plain
shell command; a shell error is caught and degraded to `"Failed"`, a falsy
(empty) response yields `"unknown"`, otherwise the stripped response. -/
def Recore.getSshEnabled (env : ExecEnv) : List Invocation × String :=
  ([Invocation.plain isSshEnabledBin],
    match env.runPlain isSshEnabledBin with
    | Except.error _ => "Failed"
    | Except.ok resp => if resp = "" then "unknown" else pyStrip resp)

/-- The inner `recore_state` dictionary of the state response. -/
structure RecoreStateFields where
  ssh_enabled : String
  boot_media : String
deriving DecidableEq, Repr

/-- The response of `Recore._handle_recore_state_request`:
`{"recore_state": {...}}`. -/
structure StateResponse where
  recore_state : RecoreStateFields
deriving DecidableEq, Repr

/-- `Recore._handle_recore_state_request`: queries boot media, then ssh
state, and composes the results.  Total by construction: neither query can
raise (each degrades internally). -/
def Recore.handleRecoreStateRequest (env : ExecEnv) :
    List Invocation × StateResponse :=
  let bm := Recore.getBootMedia env
  let ssh := Recore.getSshEnabled env
  (bm.1 ++ ssh.1, StateResponse.mk (RecoreStateFields.mk ssh.2 bm.2))

/-- A web request as seen by the handler: the endpoint it was routed under
and the body arguments.  `_handle_machine_request` only ever reads the
endpoint (`web_request.get_endpoint()`); the body is never consulted. -/
structure WebRequest where
  endpoint : String
  args : List (String × String)
deriving DecidableEq, Repr

/-- Outcome of `Recore._handle_machine_request`: the `"ok"` acknowledgment,
the `server.error` for unsupported endpoints, the container-refusal branch,
or a shell error propagated from the provider. -/
inductive HandlerResult where
  | ok (ack : String)
  | unsupportedError (msg : String)
  | containerRefusal
  | shellError (msg : String)
deriving DecidableEq, Repr

/-- `Recore._handle_machine_request`: refuses when inside a container,
dispatches the two known endpoints to the provider with fixed arguments
(`"true"` resp. `"usb"`), raises the unsupported-request error otherwise,
and returns `"ok"` on success.  Provider failures propagate. -/
def Recore.handleMachineRequest (insideContainer : Bool) (env : ExecEnv)
    (req : WebRequest) : List Invocation × HandlerResult :=
  let ep := req.endpoint
  if insideContainer then
    ([], HandlerResult.containerRefusal)
  else if ep = "/recore/enable_ssh" then
    let r := BaseProvider.enableSsh env "true"
    (r.1, match r.2 with
      | Except.ok _ => HandlerResult.ok "ok"
      | Except.error e => HandlerResult.shellError e)
  else if ep = "/recore/set_boot_media" then
    let r := BaseProvider.setBootMedia env "usb"
    (r.1, match r.2 with
      | Except.ok _ => HandlerResult.ok "ok"
      | Except.error e => HandlerResult.shellError e)
  else
    ([], HandlerResult.unsupportedError "Unsupported machine request")

/-- Outcome of awaiting `wait_for_init`: the coroutine completes normally,
or never completes. -/
inductive WaitOutcome where
  | returns
  | blocks
deriving DecidableEq, Repr

/-- `Recore.wait_for_init`: awaits `asyncio.wait_for(self.init_evt.wait(),
timeout)` and swallows `asyncio.TimeoutError`.  If the event is set the wait
completes at once; otherwise a `None` timeout blocks forever, and a given
timeout raises `TimeoutError` after it elapses, which is caught, so the
call returns normally. -/
def Recore.waitForInit (initEvtSet : Bool) (timeout : Option Float) :
    WaitOutcome :=
  if initEvtSet then WaitOutcome.returns
  else match timeout with
    | none => WaitOutcome.blocks
    | some _ => WaitOutcome.returns

/-- The mutable attributes of a `Recore` instance that the module's
operations can touch. -/
structure RecoreState where
  insideContainer : Bool
  initEvt : Bool
  sudoPassword : Option String
deriving DecidableEq, Repr

/-- The state established by `Recore.__init__`: `inside_container = False`,
the init event unset. -/
def Recore.initState : RecoreState :=
  RecoreState.mk false false none

/-- `Recore.is_inside_container`. -/
def Recore.isInsideContainer (s : RecoreState) : Bool := s.insideContainer

/-- The operations of the module that run against a `Recore` instance. -/
inductive RecoreOp where
  | machineRequest (req : WebRequest)
  | stateRequest
  | waitInit (timeout : Option Float)
  | componentInit
  | isInsideContainerQuery
  | getSystemProvider
  | setSudoPassword (pwd : Option String)

/-- Effect of each operation on the instance state.  Only `component_init`
touches `init_evt` (it sets it, after the provider's `initialize`), and only
the `sudo_password` setter touches `_sudo_password`; every other operation
leaves the state unchanged. -/
def Recore.applyOp (_env : ExecEnv) : RecoreOp → RecoreState → RecoreState
  | RecoreOp.componentInit, s =>
      RecoreState.mk s.insideContainer true s.sudoPassword
  | RecoreOp.setSudoPassword p, s =>
      RecoreState.mk s.insideContainer s.initEvt p
  | RecoreOp.machineRequest _, s => s
  | RecoreOp.stateRequest, s => s
  | RecoreOp.waitInit _, s => s
  | RecoreOp.isInsideContainerQuery, s => s
  | RecoreOp.getSystemProvider, s => s

/-- Run a sequence of operations from a starting state. -/
def Recore.runOps (env : ExecEnv) (ops : List RecoreOp) (s : RecoreState) :
    RecoreState :=
  ops.foldl (fun st op => Recore.applyOp env op st) s

/-- The internal steps of `Recore.component_init`, in execution order. -/
inductive InitStep where
  | providerInitialize
  | setInitEvt
deriving DecidableEq, Repr

/-- `Recore.component_init` first awaits `self.sys_provider.initialize()`
and only then sets `self.init_evt`. -/
def Recore.componentInitSteps : List InitStep :=
  [InitStep.providerInitialize, InitStep.setInitEvt]

/-- A concrete environment where every external call succeeds with a
non-empty output. -/
def envAllOk : ExecEnv :=
  ExecEnv.mk (fun _ => Except.ok "out") (fun _ => Except.ok "")

/-- A concrete environment where both plain query commands succeed with an
empty (falsy) output. -/
def envEmptyOk : ExecEnv :=
  ExecEnv.mk (fun _ => Except.ok "") (fun _ => Except.ok "")

/-- A concrete environment where every external call fails. -/
def envFailBoth : ExecEnv :=
  ExecEnv.mk (fun _ => Except.error "boom") (fun _ => Except.error "boom")

/-- A concrete environment giving the two query commands distinct,
whitespace-padded outputs. -/
def envDistinct : ExecEnv :=
  ExecEnv.mk
    (fun c => if c = getBootMediaBin then Except.ok " emmc "
              else Except.ok "true")
    (fun _ => Except.ok "")

/-- A concrete request to `/recore/enable_ssh` whose body carries the
on/off value `"false"`. -/
def reqEnableSshFalse : WebRequest :=
  WebRequest.mk "/recore/enable_ssh" [("enable", "false")]

/-- A concrete request to an endpoint that is not registered for the
machine-request handler. -/
def reqUnknown : WebRequest :=
  WebRequest.mk "/recore/reboot" []

/-- A concrete instance state in which the readiness event has been set. -/
def stateEvtSet : RecoreState :=
  RecoreState.mk false true none

/-!
Theorems.  Each claim of the specification is settled below; helper lemmas
shared between proofs come first.
-/

/-- No operation changes the container flag. -/
theorem applyOp_insideContainer (env : ExecEnv) (op : RecoreOp)
    (s : RecoreState) :
    (Recore.applyOp env op s).insideContainer = s.insideContainer := by
  cases op <;> rfl

/-- No sequence of operations changes the container flag. -/
theorem runOps_insideContainer (env : ExecEnv) (ops : List RecoreOp)
    (s : RecoreState) :
    (Recore.runOps env ops s).insideContainer = s.insideContainer := by
  induction ops generalizing s with
  | nil => rfl
  | cons op rest ih =>
      exact (ih (Recore.applyOp env op s)).trans
        (applyOp_insideContainer env op s)

/-- With the container flag down, the machine-request handler never takes
the container-refusal branch. -/
theorem handleMachineRequest_no_container_refusal (env : ExecEnv)
    (req : WebRequest) :
    (Recore.handleMachineRequest false env req).2 ≠
      HandlerResult.containerRefusal := by
  by_cases h1 : req.endpoint = "/recore/enable_ssh"
  · cases hs : env.runSudo (setSshAccessBin ++ " " ++ "true") <;>
      simp [Recore.handleMachineRequest, BaseProvider.enableSsh,
        BaseProvider.execSudoCommand, Except.map, h1, hs]
  · by_cases h2 : req.endpoint = "/recore/set_boot_media"
    · cases hs : env.runSudo (setBootMediaBin ++ " " ++ "usb") <;>
        simp [Recore.handleMachineRequest, BaseProvider.setBootMedia,
          BaseProvider.execSudoCommand, Except.map, h1, h2, hs]
    · simp [Recore.handleMachineRequest, h1, h2]

/-- Claim C1 counterexample: a POST to `/recore/enable_ssh` whose body
carries the on/off value `"false"` does not forward that body value to the
provider; the privileged command invoked carries the hardcoded `"true"`
instead. -/
theorem enable_ssh_ignores_body_cex :
    reqEnableSshFalse.args = [("enable", "false")] ∧
    (Recore.handleMachineRequest false envAllOk reqEnableSshFalse).1 =
      [Invocation.sudo (setSshAccessBin ++ " " ++ "true")] ∧
    (Recore.handleMachineRequest false envAllOk reqEnableSshFalse).1 ≠
      [Invocation.sudo (setSshAccessBin ++ " " ++ "false")] := by
  refine ⟨rfl, by decide, by decide⟩

/-- Claim C1 (amended): the machine-request handler ignores the request
body entirely: every `/recore/enable_ssh` request forwards the fixed value
`"true"` and every `/recore/set_boot_media` request forwards the fixed
value `"usb"` to the provider, regardless of the body arguments. -/
theorem machine_request_forwards_fixed_values (env : ExecEnv)
    (args args2 : List (String × String)) :
    (Recore.handleMachineRequest false env
      (WebRequest.mk "/recore/enable_ssh" args)).1 =
      [Invocation.sudo (setSshAccessBin ++ " " ++ "true")] ∧
    (Recore.handleMachineRequest false env
      (WebRequest.mk "/recore/set_boot_media" args2)).1 =
      [Invocation.sudo (setBootMediaBin ++ " " ++ "usb")] := by
  constructor <;>
    simp [Recore.handleMachineRequest, BaseProvider.enableSsh,
      BaseProvider.setBootMedia, BaseProvider.execSudoCommand]

/-- Claim C2 counterexample: the boot-media query invokes its binary as a
plain shell command, not through the privileged path, so it is not the case
that every invocation of the four binaries is privileged. -/
theorem query_invocation_not_sudo_cex :
    (Recore.getBootMedia envAllOk).1 = [Invocation.plain getBootMediaBin] ∧
    ((Recore.getBootMedia envAllOk).1.all Invocation.isSudo) = false := by
  refine ⟨by decide, by decide⟩

/-- Claim C2 (amended): the two mutating binaries (`set-ssh-access`,
`set-boot-media`) are always invoked through the privileged path with one
argument, while the two state-query binaries (`get-boot-media`,
`is-ssh-enabled`) are invoked by fixed path with no arguments as plain,
unprivileged shell commands. -/
theorem binary_invocation_paths (env : ExecEnv) (enabled media : String) :
    (BaseProvider.enableSsh env enabled).1 =
      [Invocation.sudo (setSshAccessBin ++ " " ++ enabled)] ∧
    (BaseProvider.setBootMedia env media).1 =
      [Invocation.sudo (setBootMediaBin ++ " " ++ media)] ∧
    (Recore.getBootMedia env).1 = [Invocation.plain getBootMediaBin] ∧
    (Recore.getSshEnabled env).1 = [Invocation.plain isSshEnabledBin] :=
  ⟨rfl, rfl, rfl, rfl⟩

/-- Claim C3: if an underlying shell command of the state query fails, the
corresponding response field is the literal degraded string `"Failed"`; the
state query is total (it returns a `StateResponse` in every environment),
so it never raises. -/
theorem state_query_degrades_on_failure (env : ExecEnv) :
    (∀ e, env.runPlain getBootMediaBin = Except.error e →
      (Recore.handleRecoreStateRequest env).2.recore_state.boot_media =
        "Failed") ∧
    (∀ e, env.runPlain isSshEnabledBin = Except.error e →
      (Recore.handleRecoreStateRequest env).2.recore_state.ssh_enabled =
        "Failed") := by
  constructor <;> intro e h <;>
    simp [Recore.handleRecoreStateRequest, Recore.getBootMedia,
      Recore.getSshEnabled, h]

/-- Witness for C3 at an environment where both commands fail. -/
theorem state_query_degrades_on_failure_witness :
    (Recore.handleRecoreStateRequest envFailBoth).2.recore_state.boot_media =
      "Failed" ∧
    (Recore.handleRecoreStateRequest envFailBoth).2.recore_state.ssh_enabled =
      "Failed" :=
  ⟨(state_query_degrades_on_failure envFailBoth).1 "boom" rfl,
   (state_query_degrades_on_failure envFailBoth).2 "boom" rfl⟩

/-- Claim C4 counterexample: with both query commands succeeding with empty
output, the response fields are `"unknown"`, not the trimmed outputs (the
empty string) verbatim. -/
theorem state_trimmed_verbatim_cex :
    envEmptyOk.runPlain getBootMediaBin = Except.ok "" ∧
    envEmptyOk.runPlain isSshEnabledBin = Except.ok "" ∧
    (Recore.handleRecoreStateRequest envEmptyOk).2 ≠
      StateResponse.mk (RecoreStateFields.mk (pyStrip "") (pyStrip "")) := by
  refine ⟨rfl, rfl, by decide⟩

/-- Claim C4 (amended): for every state request in which both underlying
shell commands succeed with non-empty output, the response is exactly
`{recore_state: {ssh_enabled, boot_media}}` where the two fields are the
trimmed outputs of the two commands, verbatim. -/
theorem state_trimmed_verbatim_nonempty (env : ExecEnv) (bm ssh : String)
    (hbm : env.runPlain getBootMediaBin = Except.ok bm)
    (hssh : env.runPlain isSshEnabledBin = Except.ok ssh)
    (hbm0 : bm ≠ "") (hssh0 : ssh ≠ "") :
    (Recore.handleRecoreStateRequest env).2 =
      StateResponse.mk (RecoreStateFields.mk (pyStrip ssh) (pyStrip bm)) := by
  simp [Recore.handleRecoreStateRequest, Recore.getBootMedia,
    Recore.getSshEnabled, hbm, hssh, hbm0, hssh0]

/-- Witness for the amended C4 at whitespace-padded concrete outputs. -/
theorem state_trimmed_verbatim_nonempty_witness :
    (Recore.handleRecoreStateRequest envDistinct).2 =
      StateResponse.mk (RecoreStateFields.mk "true" "emmc") := by
  have h := state_trimmed_verbatim_nonempty envDistinct " emmc " "true"
    rfl rfl (by decide) (by decide)
  rw [h]
  decide

/-- Claim C5: `enable_ssh` and `set_boot_media` invoke the privileged path
with exactly the fixed binary path followed by the given argument, and any
failure of that privileged call propagates uncaught to the caller. -/
theorem provider_sudo_commands_and_propagation (env : ExecEnv)
    (enabled media : String) :
    (BaseProvider.enableSsh env enabled).1 =
      [Invocation.sudo (setSshAccessBin ++ " " ++ enabled)] ∧
    (BaseProvider.setBootMedia env media).1 =
      [Invocation.sudo (setBootMediaBin ++ " " ++ media)] ∧
    (∀ e, env.runSudo (setSshAccessBin ++ " " ++ enabled) = Except.error e →
      (BaseProvider.enableSsh env enabled).2 = Except.error e) ∧
    (∀ e, env.runSudo (setBootMediaBin ++ " " ++ media) = Except.error e →
      (BaseProvider.setBootMedia env media).2 = Except.error e) := by
  refine ⟨rfl, rfl, ?_, ?_⟩ <;> intro e h <;>
    simp [BaseProvider.enableSsh, BaseProvider.setBootMedia,
      BaseProvider.execSudoCommand, Except.map, h]

/-- Witness for C5 at a failing environment. -/
theorem provider_sudo_commands_and_propagation_witness :
    (BaseProvider.enableSsh envFailBoth "true").2 = Except.error "boom" ∧
    (BaseProvider.setBootMedia envFailBoth "usb").2 = Except.error "boom" :=
  ⟨(provider_sudo_commands_and_propagation envFailBoth "true" "usb").2.2.1
      "boom" rfl,
   (provider_sudo_commands_and_propagation envFailBoth "true" "usb").2.2.2
      "boom" rfl⟩

/-- Claim C6: with the constructed container flag, every endpoint other
than the two supported ones makes the machine-request handler raise the
generic unsupported-request error, and the `"ok"` acknowledgment is only
ever returned for the two supported endpoints. -/
theorem unsupported_endpoint_error (env : ExecEnv) (req : WebRequest) :
    (req.endpoint ≠ "/recore/enable_ssh" →
      req.endpoint ≠ "/recore/set_boot_media" →
      (Recore.handleMachineRequest Recore.initState.insideContainer env
        req).2 =
        HandlerResult.unsupportedError "Unsupported machine request") ∧
    (∀ ack,
      (Recore.handleMachineRequest Recore.initState.insideContainer env
        req).2 = HandlerResult.ok ack →
      req.endpoint = "/recore/enable_ssh" ∨
        req.endpoint = "/recore/set_boot_media") := by
  constructor
  · intro h1 h2
    simp [Recore.handleMachineRequest, Recore.initState, h1, h2]
  · intro ack h
    by_cases h1 : req.endpoint = "/recore/enable_ssh"
    · exact Or.inl h1
    by_cases h2 : req.endpoint = "/recore/set_boot_media"
    · exact Or.inr h2
    · simp [Recore.handleMachineRequest, Recore.initState, h1, h2] at h

/-- Witness for C6 at a concrete unsupported endpoint. -/
theorem unsupported_endpoint_error_witness :
    (Recore.handleMachineRequest Recore.initState.insideContainer envAllOk
      reqUnknown).2 =
      HandlerResult.unsupportedError "Unsupported machine request" :=
  (unsupported_endpoint_error envAllOk reqUnknown).1 (by decide) (by decide)

/-- Claim C7: `wait_for_init` completes normally whenever the readiness
signal has fired, and whenever a timeout is given it also completes
normally, even if the signal never fires. -/
theorem wait_for_init_returns (evtSet : Bool) (t : Option Float) :
    (evtSet = true → Recore.waitForInit evtSet t = WaitOutcome.returns) ∧
    (∀ d : Float,
      Recore.waitForInit evtSet (some d) = WaitOutcome.returns) := by
  constructor
  · intro h
    simp [Recore.waitForInit, h]
  · intro d
    cases evtSet <;> simp [Recore.waitForInit]

/-- Witness for C7: the signal fired with no timeout, and a two-second
timeout with the signal never fired. -/
theorem wait_for_init_returns_witness :
    Recore.waitForInit true none = WaitOutcome.returns ∧
    Recore.waitForInit false (some 2) = WaitOutcome.returns :=
  ⟨(wait_for_init_returns true none).1 rfl,
   (wait_for_init_returns false (some 2)).2 2⟩

/-- Claim C8: the only operation that changes the readiness signal is
`component_init`, which sets it; a set signal is never cleared by any
operation; and within `component_init` the provider's initialization step
strictly precedes setting the signal. -/
theorem init_evt_set_once_by_component_init (env : ExecEnv) (op : RecoreOp)
    (s : RecoreState) :
    ((Recore.applyOp env op s).initEvt ≠ s.initEvt →
      op = RecoreOp.componentInit) ∧
    (Recore.applyOp env RecoreOp.componentInit s).initEvt = true ∧
    (s.initEvt = true → (Recore.applyOp env op s).initEvt = true) ∧
    Recore.componentInitSteps.indexOf InitStep.providerInitialize <
      Recore.componentInitSteps.indexOf InitStep.setInitEvt := by
  refine ⟨?_, rfl, ?_, by decide⟩
  · intro h
    cases op <;> simp [Recore.applyOp] at h ⊢
  · intro h
    cases op <;> simp [Recore.applyOp, h]

/-- Witness for C8 at `component_init` from the constructed state and a
read-only operation from a state with the signal set. -/
theorem init_evt_set_once_by_component_init_witness :
    RecoreOp.componentInit = RecoreOp.componentInit ∧
    (Recore.applyOp envAllOk RecoreOp.componentInit
      Recore.initState).initEvt = true ∧
    (Recore.applyOp envAllOk RecoreOp.stateRequest stateEvtSet).initEvt =
      true :=
  ⟨(init_evt_set_once_by_component_init envAllOk RecoreOp.componentInit
      Recore.initState).1 (by decide),
   (init_evt_set_once_by_component_init envAllOk RecoreOp.componentInit
      Recore.initState).2.1,
   (init_evt_set_once_by_component_init envAllOk RecoreOp.stateRequest
      stateEvtSet).2.2.1 rfl⟩

/-- Claim C9: a state-query command that succeeds with empty (falsy)
output yields the literal string `"unknown"` in the corresponding response
field, not the empty output. -/
theorem empty_output_reported_unknown (env : ExecEnv) :
    (env.runPlain getBootMediaBin = Except.ok "" →
      (Recore.handleRecoreStateRequest env).2.recore_state.boot_media =
        "unknown") ∧
    (env.runPlain isSshEnabledBin = Except.ok "" →
      (Recore.handleRecoreStateRequest env).2.recore_state.ssh_enabled =
        "unknown") := by
  constructor <;> intro h <;>
    simp [Recore.handleRecoreStateRequest, Recore.getBootMedia,
      Recore.getSshEnabled, h]

/-- Witness for C9 at an environment producing empty outputs. -/
theorem empty_output_reported_unknown_witness :
    (Recore.handleRecoreStateRequest envEmptyOk).2.recore_state.boot_media =
      "unknown" ∧
    (Recore.handleRecoreStateRequest envEmptyOk).2.recore_state.ssh_enabled =
      "unknown" :=
  ⟨(empty_output_reported_unknown envEmptyOk).1 rfl,
   (empty_output_reported_unknown envEmptyOk).2 rfl⟩

/-- Claim C10: the container flag is false at construction, no operation
ever mutates it, `is_inside_container` returns false on every reachable
state, and the container-refusal branch of the machine-request handler is
unreachable. -/
theorem container_refusal_unreachable (env : ExecEnv) (ops : List RecoreOp)
    (req : WebRequest) :
    Recore.initState.insideContainer = false ∧
    (Recore.runOps env ops Recore.initState).insideContainer = false ∧
    Recore.isInsideContainer (Recore.runOps env ops Recore.initState) =
      false ∧
    (Recore.handleMachineRequest
        (Recore.runOps env ops Recore.initState).insideContainer env
        req).2 ≠
      HandlerResult.containerRefusal := by
  have h := runOps_insideContainer env ops Recore.initState
  refine ⟨rfl, h, h, ?_⟩
  rw [h]
  exact handleMachineRequest_no_container_refusal env req
